import Mathlib

/-!
Verification of the langchain-avp credential adapter.

Shallow embedding of:
  * src/langchain_avp/credential_provider.py (AVPCredentialProvider)
  * src/langchain_avp/utils.py (get_llm_with_avp)
  * src/langchain_avp/callbacks.py (AVPCredentialCallback)

The external avp vault client (AVPClient / backends) is not part of this
repository; its retrieve/store/delete operations are modelled from the
spec's external-interface contract (spec section 6), as a named secret map
plus a transient-fault flag.
-/

namespace LangchainAVP

/-- A byte payload as stored in the vault.  The Python layer encodes
credential strings with str.encode (UTF-8) and decodes with bytes.decode;
a payload either decodes to a string or fails to decode (the decode-error
case of the fail-soft read path in AVPCredentialProvider.get). -/
inductive Bytes where
  | utf8 (s : String)
  | invalid
deriving DecidableEq, Repr

/-- str.encode in set / rotate: a credential string becomes a decodable payload. -/
def encodeStr (s : String) : Bytes := Bytes.utf8 s

/-- bytes.decode in get: none models a UnicodeDecodeError being raised. -/
def decodeBytes : Bytes → Option String
  | Bytes.utf8 s => some s
  | Bytes.invalid => none

/-- Failure modes of the external secret backend (spec section 6: retrieve
may fail for not-found / decryption errors; any operation may hit a
transient fault). -/
inductive BackendErr where
  | notFound
  | transient
deriving DecidableEq, Repr

/-- Modelled from the spec: the state of the external AVP vault backend,
which is not code of this repository.  Spec section 6 gives its boundary
contract: it holds named secrets (retrieve / store / delete against a
session) and any call on it may fail; faulty models a transient backend
fault that makes every backend call raise. -/
structure VaultState where
  secrets : List (String × Bytes)
  faulty : Bool
deriving DecidableEq, Repr

/-- Modelled from the spec: retrieve(session, name) of the external backend.
Fails with not-found when no secret of that name exists, or with a
transient fault when the backend is faulty. -/
def retrieve (st : VaultState) (name : String) : Except BackendErr Bytes :=
  if st.faulty then Except.error BackendErr.transient
  else
    match st.secrets.lookup name with
    | some b => Except.ok b
    | none => Except.error BackendErr.notFound

/-- Modelled from the spec: store(session, name, bytes) of the external
backend; overwrites if present (the new binding shadows any old one);
propagates a transient fault. -/
def storeSecret (st : VaultState) (name : String) (val : Bytes) :
    Except BackendErr VaultState :=
  if st.faulty then Except.error BackendErr.transient
  else Except.ok { st with secrets := (name, val) :: st.secrets }

/-- Modelled from the spec: delete(session, name) of the external backend;
removes every binding of the name and reports whether one existed. -/
def deleteSecret (st : VaultState) (name : String) :
    Except BackendErr (VaultState × Bool) :=
  if st.faulty then Except.error BackendErr.transient
  else
    Except.ok
      ({ st with secrets := st.secrets.filter (fun p => !(p.1 == name)) },
       st.secrets.any (fun p => p.1 == name))

/-- Python str.lower modelled character-wise (the provider names the code
compares against are ASCII, where this agrees with str.lower). -/
def lowerStr (s : String) : String := ⟨s.data.map Char.toLower⟩

namespace AVPCredentialProvider

/-- AVPCredentialProvider.get (credential_provider.py lines 60-75):
try retrieve then decode, and on ANY exception return the default. -/
def get (st : VaultState) (name : String) (dflt : Option String) : Option String :=
  match retrieve st name with
  | Except.error _ => dflt
  | Except.ok b =>
    match decodeBytes b with
    | none => dflt
    | some s => some s

/-- AVPCredentialProvider.set (lines 77-91): encode and store; backend
errors propagate unmodified. -/
def set (st : VaultState) (name value : String) : Except BackendErr VaultState :=
  storeSecret st name (encodeStr value)

/-- AVPCredentialProvider.delete (lines 93-104): backend delete; returns
the deleted flag; backend errors propagate unmodified. -/
def delete (st : VaultState) (name : String) : Except BackendErr (VaultState × Bool) :=
  deleteSecret st name

/-- The fixed provider-to-credential-key table of get_api_key
(credential_provider.py lines 141-148). -/
def key_mapping : List (String × String) :=
  [("anthropic", "anthropic_api_key"),
   ("openai", "openai_api_key"),
   ("cohere", "cohere_api_key"),
   ("huggingface", "huggingface_api_key"),
   ("google", "google_api_key"),
   ("mistral", "mistral_api_key")]

/-- The key computation of get_api_key (line 149): lowercase the provider,
look it up in the fixed table, and on a miss synthesize the conventional
name. -/
def resolveKey (provider : String) : String :=
  (key_mapping.lookup (lowerStr provider)).getD (lowerStr provider ++ "_api_key")

/-- AVPCredentialProvider.get_api_key (lines 129-150): resolve the key and
read it with the fail-soft get (default None). -/
def get_api_key (st : VaultState) (provider : String) : Option String :=
  get st (resolveKey provider) none

end AVPCredentialProvider

/-- Python truthiness of an Optional[str]: None and the empty string are
falsy (the `if not api_key` guard in get_llm_with_avp, utils.py line 74). -/
def truthyStr : Option String → Bool
  | none => false
  | some s => !(s == "")

/-- The errors get_llm_with_avp can raise (utils.py lines 74-131): the
missing-credential ValueError, the unknown-provider ValueError (which
lists the supported providers), and the ImportError for an absent SDK. -/
inductive LLMError where
  | missingCredential (provider : String)
  | unknownProvider (provider : String) (supported : List String)
  | importErr (package : String)
deriving DecidableEq, Repr

/-- The client a successful get_llm_with_avp call constructs, recording
which constructor ran and with which api key and model (utils.py). -/
inductive LLMClient where
  | chatAnthropic (apiKey model : String)
  | chatOpenAI (apiKey model : String)
  | chatCohere (apiKey model : String)
  | chatMistral (apiKey model : String)
deriving DecidableEq, Repr

/-- The provider list printed by the unknown-provider error
(utils.py lines 128-131). -/
def supportedProviders : List String := ["anthropic", "openai", "cohere", "mistral"]

/-- get_llm_with_avp (utils.py lines 50-131).  sdk models which langchain
SDK packages import successfully.  First resolves the api key through
get_api_key and fails on a falsy result; only then lowercases the provider
and dispatches to a constructor, failing on an unregistered name. -/
def get_llm_with_avp (sdk : String → Bool) (st : VaultState)
    (provider : String) (model : Option String) : Except LLMError LLMClient :=
  let apiKey := AVPCredentialProvider.get_api_key st provider
  if !(truthyStr apiKey) then
    Except.error (LLMError.missingCredential provider)
  else
    let key := apiKey.getD ""
    let p := lowerStr provider
    if p == "anthropic" then
      if sdk "langchain_anthropic" then
        Except.ok (LLMClient.chatAnthropic key (model.getD "claude-3-haiku-20240307"))
      else Except.error (LLMError.importErr "langchain-anthropic")
    else if p == "openai" then
      if sdk "langchain_openai" then
        Except.ok (LLMClient.chatOpenAI key (model.getD "gpt-3.5-turbo"))
      else Except.error (LLMError.importErr "langchain-openai")
    else if p == "cohere" then
      if sdk "langchain_cohere" then
        Except.ok (LLMClient.chatCohere key (model.getD "command"))
      else Except.error (LLMError.importErr "langchain-cohere")
    else if p == "mistral" then
      if sdk "langchain_mistralai" then
        Except.ok (LLMClient.chatMistral key (model.getD "mistral-small-latest"))
      else Except.error (LLMError.importErr "langchain-mistralai")
    else
      Except.error (LLMError.unknownProvider p supportedProviders)

/-! ### Audit callback (callbacks.py), value-level model -/

/-- A metadata value in an audit entry: the code stores strings
(provider, model, error text), counts (prompt_count, generations) and the
token_usage mapping. -/
inductive MetaVal where
  | s (v : String)
  | n (v : Nat)
  | m (kv : List (String × Nat))
deriving DecidableEq, Repr

/-- An entry of the audit log (the dict built by _log, callbacks.py
lines 36-42): timestamp, event kind, nullable run id, metadata mapping. -/
structure AuditEntry where
  timestamp : String
  event : String
  run_id : Option String
  metadata : List (String × MetaVal)
deriving DecidableEq, Repr

/-- The callback state at the value level: the audit-log list and the
current run id (callbacks.py lines 31-32). -/
structure CallbackState where
  audit_log : List AuditEntry
  current_run : Option String
deriving DecidableEq, Repr

/-- A fresh AVPCredentialCallback (callbacks.py lines 23-32). -/
def CallbackState.init : CallbackState := { audit_log := [], current_run := none }

/-- AVPCredentialCallback._log (lines 34-43): build an entry from the
wall clock (here a parameter), the event kind and the current run id,
and append it to the audit log. -/
def logEvent (now : String) (st : CallbackState) (event : String)
    (metadata : List (String × MetaVal)) : CallbackState :=
  { st with
    audit_log := st.audit_log ++
      [{ timestamp := now, event := event, run_id := st.current_run,
         metadata := metadata }] }

/-- AVPCredentialCallback.get_audit_log (lines 98-100) at the value
level: the contents of the returned copy. -/
def get_audit_log (st : CallbackState) : List AuditEntry := st.audit_log

/-- AVPCredentialCallback.clear_audit_log (lines 102-104): rebind the
audit log to a fresh empty list. -/
def clear_audit_log (st : CallbackState) : CallbackState :=
  { st with audit_log := [] }

/-- The serialized dict handed to on_llm_start, with the fields the code
reads: an optional kwargs dict that may carry a model name, and an
optional id path list. -/
structure Serialized where
  kwargs : Option (Option String)
  id : Option (List String)

/-- The model extraction of on_llm_start (callbacks.py line 57):
serialized.get with default empty dict, then .get with default unknown. -/
def extractModel (ser : Serialized) : String :=
  ((ser.kwargs.getD none).getD "unknown")

/-- The provider extraction of on_llm_start (line 58): the last element
of the id list when that list is present and non-empty, else unknown. -/
def extractProvider (ser : Serialized) : String :=
  match ser.id with
  | some l => match l.getLast? with
              | some p => p
              | none => "unknown"
  | none => "unknown"

/-- AVPCredentialCallback.on_llm_start (lines 45-64): set the current
run, extract model and provider with unknown fallbacks, and log one
llm_start entry with provider, model and prompt count. -/
def on_llm_start (now : String) (st : CallbackState) (ser : Serialized)
    (prompts : List String) (run_id : Option String) : CallbackState :=
  let st1 := { st with current_run := if truthyStr run_id then run_id else none }
  logEvent now st1 "llm_start"
    [("provider", MetaVal.s (extractProvider ser)),
     ("model", MetaVal.s (extractModel ser)),
     ("prompt_count", MetaVal.n prompts.length)]

/-- The LLMResult fields on_llm_end reads: the number of generations and
an optional llm_output dict that may carry a token_usage mapping. -/
structure LLMRes where
  generations : Nat
  llm_output : Option (Option (List (String × Nat)))

/-- AVPCredentialCallback.on_llm_end (lines 66-82): log one llm_end entry
with the generation count and the token usage (empty when llm_output is
absent or lacks token_usage), then reset the current run. -/
def on_llm_end (now : String) (st : CallbackState) (resp : LLMRes) : CallbackState :=
  let token_usage :=
    match resp.llm_output with
    | some tu => tu.getD []
    | none => []
  let st1 := logEvent now st "llm_end"
    [("generations", MetaVal.n resp.generations),
     ("token_usage", MetaVal.m token_usage)]
  { st1 with current_run := none }

/-- AVPCredentialCallback.on_llm_error (lines 84-96): log one llm_error
entry with the error text and its type name, then reset the current run. -/
def on_llm_error (now : String) (st : CallbackState)
    (errText errType : String) : CallbackState :=
  let st1 := logEvent now st "llm_error"
    [("error", MetaVal.s errText),
     ("error_type", MetaVal.s errType)]
  { st1 with current_run := none }

/-- One record call on the callback: which handler ran and with which
arguments. -/
inductive CallEvent where
  | start (now : String) (ser : Serialized) (prompts : List String)
      (run_id : Option String)
  | llmEnd (now : String) (resp : LLMRes)
  | llmError (now : String) (errText errType : String)

/-- Dispatch a record call to its handler. -/
def applyEvent (st : CallbackState) : CallEvent → CallbackState
  | CallEvent.start now ser prompts rid => on_llm_start now st ser prompts rid
  | CallEvent.llmEnd now resp => on_llm_end now st resp
  | CallEvent.llmError now et ty => on_llm_error now st et ty

/-- Run a sequence of record calls in order. -/
def runEvents (st : CallbackState) (es : List CallEvent) : CallbackState :=
  es.foldl applyEvent st

/-- The single audit entry a record call appends, given the current run id
at the time of the call. -/
def eventEntry (cur : Option String) : CallEvent → AuditEntry
  | CallEvent.start now ser prompts rid =>
    { timestamp := now, event := "llm_start",
      run_id := if truthyStr rid then rid else none,
      metadata := [("provider", MetaVal.s (extractProvider ser)),
                   ("model", MetaVal.s (extractModel ser)),
                   ("prompt_count", MetaVal.n prompts.length)] }
  | CallEvent.llmEnd now resp =>
    { timestamp := now, event := "llm_end", run_id := cur,
      metadata := [("generations", MetaVal.n resp.generations),
                   ("token_usage", MetaVal.m
                     (match resp.llm_output with
                      | some tu => tu.getD []
                      | none => []))] }
  | CallEvent.llmError now et ty =>
    { timestamp := now, event := "llm_error", run_id := cur,
      metadata := [("error", MetaVal.s et), ("error_type", MetaVal.s ty)] }

/-- The current run id after a record call. -/
def eventRun (_cur : Option String) : CallEvent → Option String
  | CallEvent.start _ _ _ rid => if truthyStr rid then rid else none
  | CallEvent.llmEnd _ _ => none
  | CallEvent.llmError _ _ _ => none

/-- The entries a sequence of record calls appends, in call order,
threading the current run id. -/
def eventEntries (cur : Option String) : List CallEvent → List AuditEntry
  | [] => []
  | e :: es => eventEntry cur e :: eventEntries (eventRun cur e) es

/-! ### Heap model of get_audit_log (callbacks.py lines 98-100)

list.copy() is a shallow copy: the returned list is a fresh list object,
but its elements are the very dict objects held by the internal list.  To
reason about that aliasing we model the Python heap explicitly: dict
objects (audit entries) and list objects (lists of dict addresses), each
addressed by its index of allocation. -/

abbrev Addr := Nat

/-- The Python heap: entry dicts and lists of dict addresses. -/
structure PyHeap where
  dicts : List AuditEntry
  lists : List (List Addr)
deriving Repr

/-- The callback object in the heap model: the address of the list object
bound to the internal audit-log attribute. -/
structure CallbackObj where
  logAddr : Addr
deriving Repr

/-- get_audit_log in the heap model: allocate a NEW list object holding
the same dict addresses as the internal list (list.copy()), and return
its address. -/
def snapshotAlloc (σ : PyHeap) (cb : CallbackObj) : PyHeap × Addr :=
  ({ σ with lists := σ.lists ++ [σ.lists.getD cb.logAddr []] }, σ.lists.length)

/-- A list-level mutation of the list object at an address (element
assignment, append, remove, ...): the object ends with the given
contents.  Touches no dict object. -/
def listAssign (σ : PyHeap) (a : Addr) (contents : List Addr) : PyHeap :=
  { σ with lists := σ.lists.set a contents }

/-- An in-place mutation of the entry dict at an address. -/
def dictAssign (σ : PyHeap) (a : Addr) (e : AuditEntry) : PyHeap :=
  { σ with dicts := σ.dicts.set a e }

/-- What a caller sees reading the list object at an address: each held
dict address dereferenced in the heap. -/
def readList (σ : PyHeap) (a : Addr) : List (Option AuditEntry) :=
  (σ.lists.getD a []).map (fun d => σ.dicts[d]?)

/-! ### Scoped-resource model (credential_provider.py lines 152-162) -/

/-- The observable resource state of a provider: whether the client
attribute is set (it always is after _connect) and how many times
client.close() has run. -/
structure ProviderRes where
  clientSome : Bool
  closeCalls : Nat
deriving DecidableEq, Repr

/-- AVPCredentialProvider.close (lines 152-155): call client.close()
when the client attribute is set. -/
def closeProv (st : ProviderRes) : ProviderRes :=
  if st.clientSome then { st with closeCalls := st.closeCalls + 1 } else st

/-- AVPCredentialProvider.__exit__ (lines 160-162): close, and return
False so any exception propagates. -/
def exitCM (st : ProviderRes) : ProviderRes × Bool := (closeProv st, false)

/-- Python with-statement semantics over the provider: run the body (a
normal value or a raised exception), invoke __exit__ exactly once on
either path, and re-raise the exception unless __exit__ returned a truthy
value (it returns False).  The result is the outcome seen by the caller
paired with the final resource state. -/
def withProvider {α : Type} (st : ProviderRes) (body : Except String α) :
    Except String (Option α) × ProviderRes :=
  match body with
  | Except.ok a => (Except.ok (some a), (exitCM st).1)
  | Except.error e =>
    let r := exitCM st
    ((if r.2 then Except.ok none else Except.error e), r.1)

/-! ### Untyped model of on_llm_start (callbacks.py lines 45-64)

The serialized argument is annotated Dict[str, Any]: nothing constrains
the values at the kwargs and id keys.  To settle whether on_llm_start is
total over arbitrary dicts we model Python values themselves, so that
ill-shaped inputs (a None kwargs, an int id) are expressible, and the
attribute and subscript operations line 57 and 58 perform can raise. -/

/-- A Python value as it can appear in the serialized dict. -/
inductive PyVal where
  | none
  | str (s : String)
  | int (n : Int)
  | list (l : List PyVal)
  | dict (kv : List (String × PyVal))

/-- The exceptions the two extraction lines can raise. -/
inductive PyErr where
  | attributeError
  | typeError
  | keyError
  | indexError
deriving DecidableEq, Repr

/-- Python truthiness of a value. -/
def pyTruthy : PyVal → Bool
  | PyVal.none => false
  | PyVal.str s => !(s == "")
  | PyVal.int n => !(n == 0)
  | PyVal.list l => !l.isEmpty
  | PyVal.dict kv => !kv.isEmpty

/-- dict.get(key, default) on a dict value. -/
def dictGet (kv : List (String × PyVal)) (k : String) (dflt : PyVal) : PyVal :=
  (kv.lookup k).getD dflt

/-- Calling .get(key, default) on an arbitrary value: only a dict has the
method; on anything else Python raises AttributeError (the line-57 failure
when serialized holds a non-dict kwargs value such as None). -/
def pyDotGet : PyVal → String → PyVal → Except PyErr PyVal
  | PyVal.dict kv, k, dflt => Except.ok (dictGet kv k dflt)
  | _, _, _ => Except.error PyErr.attributeError

/-- Subscripting an arbitrary value with -1: a list or a string yields
its last item, a dict raises KeyError, anything else raises TypeError
(the line-58 failure when serialized holds a truthy non-sequence id). -/
def pyLastIndex : PyVal → Except PyErr PyVal
  | PyVal.list l =>
    match l.getLast? with
    | some v => Except.ok v
    | Option.none => Except.error PyErr.indexError
  | PyVal.str s =>
    match s.data.getLast? with
    | some c => Except.ok (PyVal.str ⟨[c]⟩)
    | Option.none => Except.error PyErr.indexError
  | PyVal.dict _ => Except.error PyErr.keyError
  | _ => Except.error PyErr.typeError

/-- Line 57 over an untyped serialized dict:
serialized.get(kwargs-key, empty dict).get(model-key, unknown). -/
def extractModelPy (ser : List (String × PyVal)) : Except PyErr PyVal :=
  pyDotGet (dictGet ser "kwargs" (PyVal.dict [])) "model" (PyVal.str "unknown")

/-- Line 58 over an untyped serialized dict: the truthiness guard reads
the id value with default None, the subscripted read uses the
one-element unknown list as default. -/
def extractProviderPy (ser : List (String × PyVal)) : Except PyErr PyVal :=
  if pyTruthy (dictGet ser "id" PyVal.none) then
    pyLastIndex (dictGet ser "id" (PyVal.list [PyVal.str "unknown"]))
  else
    Except.ok (PyVal.str "unknown")

/-- An audit entry whose metadata carries raw Python values, as _log
stores whatever line 57-58 extracted. -/
structure AuditEntryPy where
  timestamp : String
  event : String
  run_id : Option String
  metadata : List (String × PyVal)

/-- The callback state in the untyped model. -/
structure CallbackStatePy where
  audit_log : List AuditEntryPy
  current_run : Option String

/-- A fresh callback in the untyped model. -/
def CallbackStatePy.init : CallbackStatePy := { audit_log := [], current_run := none }

/-- on_llm_start over an untyped serialized dict, following the code line
by line: set the current run (line 54), extract the model (line 57, may
raise), extract the provider (line 58, may raise), then log exactly one
llm_start entry.  A raise carries the state as mutated so far (the
current run was already set, nothing was appended). -/
def on_llm_start_py (now : String) (st : CallbackStatePy)
    (ser : List (String × PyVal)) (prompts : List PyVal)
    (rid : Option String) : Except (PyErr × CallbackStatePy) CallbackStatePy :=
  let st1 : CallbackStatePy :=
    { st with current_run := if truthyStr rid then rid else none }
  match extractModelPy ser with
  | Except.error e => Except.error (e, st1)
  | Except.ok model =>
    match extractProviderPy ser with
    | Except.error e => Except.error (e, st1)
    | Except.ok provider =>
      Except.ok
        { st1 with audit_log := st1.audit_log ++
            [{ timestamp := now, event := "llm_start", run_id := st1.current_run,
               metadata := [("provider", provider), ("model", model),
                            ("prompt_count", PyVal.int prompts.length)] }] }

/-! ## Helper lemmas -/

/-- Decidable equality of Except results, so that witnesses can be checked
by evaluation. -/
instance exceptDecEq {ε α : Type} [DecidableEq ε] [DecidableEq α] :
    DecidableEq (Except ε α) := fun x y =>
  match x, y with
  | Except.ok a, Except.ok b =>
    if h : a = b then isTrue (by rw [h])
    else isFalse (fun hc => h (Except.ok.inj hc))
  | Except.error a, Except.error b =>
    if h : a = b then isTrue (by rw [h])
    else isFalse (fun hc => h (Except.error.inj hc))
  | Except.ok _, Except.error _ => isFalse (fun hc => Except.noConfusion hc)
  | Except.error _, Except.ok _ => isFalse (fun hc => Except.noConfusion hc)

/-- Looking up a key in an association list from which every binding of
that key was filtered out yields nothing. -/
theorem lookup_filter_self {β : Type} (name : String) (l : List (String × β)) :
    (l.filter (fun p => !(p.1 == name))).lookup name = none := by
  induction l with
  | nil => rfl
  | cons p t ih =>
    rcases p with ⟨k, v⟩
    by_cases h : k = name
    · simpa [List.filter_cons, h] using ih
    · simp [List.filter_cons, h, List.lookup, ih,
        beq_eq_false_iff_ne.mpr (Ne.symm h)]

/-- getD at the index right past a list reads the appended element. -/
theorem getD_concat_length {α : Type} (l : List α) (x : α) (d : α) :
    (l ++ [x]).getD l.length d = x := by
  simp [List.getD, List.getElem?_concat_length]

/-- getD below the left length reads the left list of an append. -/
theorem getD_append_left {α : Type} (l l2 : List α) (i : Nat) (d : α)
    (h : i < l.length) :
    (l ++ l2).getD i d = l.getD i d := by
  simp [List.getD, List.getElem?_append, h]

/-- Setting the freshly appended cell replaces only that cell. -/
theorem set_concat_length {α : Type} (l : List α) (x y : α) :
    (l ++ [x]).set l.length y = l ++ [y] := by
  simp [List.set_append]

/-! ## Claims -/

/-- C4: the key computation of get_api_key is a pure total function: for
every provider whose lowercased name is in the fixed table it returns the
table entry, for every other provider it synthesizes the lowercased name
followed by the api-key suffix, and on the six table providers it returns
the documented keys. -/
theorem C4_resolveKey_table :
    (∀ p k, AVPCredentialProvider.key_mapping.lookup (lowerStr p) = some k →
      AVPCredentialProvider.resolveKey p = k) ∧
    (∀ p, AVPCredentialProvider.key_mapping.lookup (lowerStr p) = none →
      AVPCredentialProvider.resolveKey p = lowerStr p ++ "_api_key") ∧
    AVPCredentialProvider.resolveKey "anthropic" = "anthropic_api_key" ∧
    AVPCredentialProvider.resolveKey "openai" = "openai_api_key" ∧
    AVPCredentialProvider.resolveKey "cohere" = "cohere_api_key" ∧
    AVPCredentialProvider.resolveKey "huggingface" = "huggingface_api_key" ∧
    AVPCredentialProvider.resolveKey "google" = "google_api_key" ∧
    AVPCredentialProvider.resolveKey "mistral" = "mistral_api_key" := by
  refine ⟨?_, ?_, by decide, by decide, by decide, by decide, by decide, by decide⟩
  · intro p k h
    simp [AVPCredentialProvider.resolveKey, h]
  · intro p h
    simp [AVPCredentialProvider.resolveKey, h]

/-- Witness for C4 at concrete inputs: a table provider in mixed case and
an unmapped provider. -/
theorem C4_resolveKey_table_witness :
    AVPCredentialProvider.resolveKey "Anthropic" = "anthropic_api_key" ∧
    AVPCredentialProvider.resolveKey "Custom" = "custom_api_key" := by
  constructor
  · exact C4_resolveKey_table.1 "Anthropic" "anthropic_api_key" (by decide)
  · exact (C4_resolveKey_table.2.1 "Custom" (by decide)).trans (by decide)

/-- C3: the fail-soft read path: get returns the default on a transient
backend fault, on a missing credential and on a payload that fails to
decode, and returns the decoded stored value on success; it never raises
(it is a total function of the vault state). -/
theorem C3_get_fail_soft :
    ∀ (st : VaultState) (name : String) (dflt : Option String),
    (st.faulty = true → AVPCredentialProvider.get st name dflt = dflt) ∧
    (st.secrets.lookup name = none → AVPCredentialProvider.get st name dflt = dflt) ∧
    (∀ b, st.secrets.lookup name = some b → decodeBytes b = none →
      AVPCredentialProvider.get st name dflt = dflt) ∧
    (∀ s, st.faulty = false → st.secrets.lookup name = some (Bytes.utf8 s) →
      AVPCredentialProvider.get st name dflt = some s) := by
  intro st name dflt
  refine ⟨?_, ?_, ?_, ?_⟩
  · intro hf
    simp [AVPCredentialProvider.get, retrieve, hf]
  · intro hl
    cases hf : st.faulty <;>
      simp [AVPCredentialProvider.get, retrieve, hf, hl]
  · intro b hl hd
    cases hf : st.faulty <;>
      simp [AVPCredentialProvider.get, retrieve, hf, hl, hd]
  · intro s hf hl
    simp [AVPCredentialProvider.get, retrieve, hf, hl, decodeBytes]

/-- Witness for C3: the four read outcomes on concrete vault states. -/
theorem C3_get_fail_soft_witness :
    AVPCredentialProvider.get ⟨[("k", Bytes.utf8 "v")], true⟩ "k" (some "D") = some "D" ∧
    AVPCredentialProvider.get ⟨[], false⟩ "k" (some "D") = some "D" ∧
    AVPCredentialProvider.get ⟨[("k", Bytes.invalid)], false⟩ "k" (some "D") = some "D" ∧
    AVPCredentialProvider.get ⟨[("k", Bytes.utf8 "v")], false⟩ "k" none = some "v" := by
  refine ⟨?_, ?_, ?_, ?_⟩
  · exact (C3_get_fail_soft ⟨[("k", Bytes.utf8 "v")], true⟩ "k" (some "D")).1 rfl
  · exact (C3_get_fail_soft ⟨[], false⟩ "k" (some "D")).2.1 rfl
  · exact (C3_get_fail_soft ⟨[("k", Bytes.invalid)], false⟩ "k" (some "D")).2.2.1
      Bytes.invalid (by decide) rfl
  · exact (C3_get_fail_soft ⟨[("k", Bytes.utf8 "v")], false⟩ "k" none).2.2.2
      "v" rfl (by decide)

/-- C5: reading a name right after a successful set returns the value
just stored, and reading it right after a successful delete returns the
supplied default. -/
theorem C5_set_delete_get :
    ∀ (st st2 : VaultState) (name v : String) (d : Option String) (b : Bool),
    (AVPCredentialProvider.set st name v = Except.ok st2 →
      AVPCredentialProvider.get st2 name none = some v) ∧
    (AVPCredentialProvider.delete st name = Except.ok (st2, b) →
      AVPCredentialProvider.get st2 name d = d) := by
  intro st st2 name v d b
  constructor
  · intro h
    rw [AVPCredentialProvider.set, storeSecret] at h
    by_cases hf : st.faulty
    · simp [hf] at h
    · simp [hf] at h
      subst h
      simp [AVPCredentialProvider.get, retrieve, hf, List.lookup,
        encodeStr, decodeBytes]
  · intro h
    rw [AVPCredentialProvider.delete, deleteSecret] at h
    by_cases hf : st.faulty
    · simp [hf] at h
    · simp [hf] at h
      obtain ⟨h1, h2⟩ := h
      subst h1
      simp [AVPCredentialProvider.get, retrieve, hf,
        lookup_filter_self name st.secrets]

/-- Witness for C5: a concrete set-then-get and delete-then-get chain. -/
theorem C5_set_delete_get_witness :
    AVPCredentialProvider.get ⟨[("k", Bytes.utf8 "v")], false⟩ "k" none = some "v" ∧
    AVPCredentialProvider.get ⟨[], false⟩ "k" (some "D") = some "D" := by
  constructor
  · exact (C5_set_delete_get ⟨[], false⟩ ⟨[("k", Bytes.utf8 "v")], false⟩
      "k" "v" none true).1 rfl
  · exact (C5_set_delete_get ⟨[("k", Bytes.utf8 "v")], false⟩ ⟨[], false⟩
      "k" "v" (some "D") true).2 rfl

/-- C2: whenever provider-key resolution finds no credential (get_api_key
is None), get_llm_with_avp fails with the missing-credential error naming
the provider, whatever the SDK availability, vault state and model
argument: a hard stop with no retry path. -/
theorem C2_missing_credential :
    ∀ (sdk : String → Bool) (st : VaultState) (p : String) (m : Option String),
    AVPCredentialProvider.get_api_key st p = none →
    get_llm_with_avp sdk st p m = Except.error (LLMError.missingCredential p) := by
  intro sdk st p m h
  simp [get_llm_with_avp, h, truthyStr]

/-- Witness for C2: an empty vault and the anthropic provider. -/
theorem C2_missing_credential_witness :
    get_llm_with_avp (fun _ => true) ⟨[], false⟩ "anthropic" none
      = Except.error (LLMError.missingCredential "anthropic") := by
  exact C2_missing_credential (fun _ => true) ⟨[], false⟩ "anthropic" none (by decide)

/-- C1 counterexample: against an empty vault ("for any store"), asking
for the unregistered provider fails with the missing-credential error,
not the unsupported-provider error: the credential check runs before the
provider dispatch. -/
theorem C1_unknown_provider_counterexample :
    get_llm_with_avp (fun _ => true) ⟨[], false⟩ "unknown-provider" none
      = Except.error (LLMError.missingCredential "unknown-provider") ∧
    get_llm_with_avp (fun _ => true) ⟨[], false⟩ "unknown-provider" none
      ≠ Except.error (LLMError.unknownProvider "unknown-provider" supportedProviders) := by
  exact ⟨by decide, by decide⟩

/-- C1 amended: for every provider whose lowercase form is not among
anthropic, openai, cohere, mistral AND whose resolved credential is
present (truthy) in the store, get_llm_with_avp fails with the
unsupported-provider error listing the known providers; when the
credential is absent the missing-credential error fires first. -/
theorem C1_unknown_provider :
    ∀ (sdk : String → Bool) (st : VaultState) (p : String) (m : Option String),
    truthyStr (AVPCredentialProvider.get_api_key st p) = true →
    lowerStr p ∉ supportedProviders →
    get_llm_with_avp sdk st p m
      = Except.error (LLMError.unknownProvider (lowerStr p) supportedProviders) := by
  intro sdk st p m h hnot
  simp only [supportedProviders, List.mem_cons, List.not_mem_nil, or_false,
    not_or] at hnot
  obtain ⟨h1, h2, h3, h4⟩ := hnot
  simp [get_llm_with_avp, h, h1, h2, h3, h4, supportedProviders]

/-- Witness for C1 amended: an unregistered provider whose synthesized
credential key is populated. -/
theorem C1_unknown_provider_witness :
    get_llm_with_avp (fun _ => true)
      ⟨[("unknown-provider_api_key", Bytes.utf8 "x")], false⟩ "unknown-provider" none
      = Except.error (LLMError.unknownProvider "unknown-provider" supportedProviders) := by
  have h := C1_unknown_provider (fun _ => true)
    ⟨[("unknown-provider_api_key", Bytes.utf8 "x")], false⟩ "unknown-provider" none
    (by decide) (by decide)
  exact h.trans (by decide)

/-- C10: the falsiness guard makes an empty-string credential behave like
an absent one: get_llm_with_avp fails with the missing-credential error
and constructs no client; and get_api_key itself is None (never raising)
when the backend faults or the resolved key is absent. -/
theorem C10_empty_credential_as_missing :
    ∀ (sdk : String → Bool) (st : VaultState) (p : String) (m : Option String),
    (AVPCredentialProvider.get_api_key st p = some "" →
      get_llm_with_avp sdk st p m = Except.error (LLMError.missingCredential p) ∧
      ∀ c, get_llm_with_avp sdk st p m ≠ Except.ok c) ∧
    (st.faulty = true → AVPCredentialProvider.get_api_key st p = none) ∧
    (st.secrets.lookup (AVPCredentialProvider.resolveKey p) = none →
      AVPCredentialProvider.get_api_key st p = none) := by
  intro sdk st p m
  refine ⟨?_, ?_, ?_⟩
  · intro h
    have he : get_llm_with_avp sdk st p m
        = Except.error (LLMError.missingCredential p) := by
      simp [get_llm_with_avp, h, truthyStr]
    exact ⟨he, fun c hc => by rw [he] at hc; exact Except.noConfusion hc⟩
  · intro hf
    simp [AVPCredentialProvider.get_api_key, AVPCredentialProvider.get,
      retrieve, hf]
  · intro hl
    cases hf : st.faulty <;>
      simp [AVPCredentialProvider.get_api_key, AVPCredentialProvider.get,
        retrieve, hf, hl]

/-- Witness for C10: a vault holding an empty-string anthropic key, a
faulty vault, and an empty vault. -/
theorem C10_empty_credential_as_missing_witness :
    get_llm_with_avp (fun _ => true) ⟨[("anthropic_api_key", Bytes.utf8 "")], false⟩
      "anthropic" none = Except.error (LLMError.missingCredential "anthropic") ∧
    AVPCredentialProvider.get_api_key ⟨[("anthropic_api_key", Bytes.utf8 "x")], true⟩
      "anthropic" = none ∧
    AVPCredentialProvider.get_api_key ⟨[], false⟩ "anthropic" = none := by
  refine ⟨?_, ?_, ?_⟩
  · exact ((C10_empty_credential_as_missing (fun _ => true)
      ⟨[("anthropic_api_key", Bytes.utf8 "")], false⟩ "anthropic" none).1 (by decide)).1
  · exact (C10_empty_credential_as_missing (fun _ => true)
      ⟨[("anthropic_api_key", Bytes.utf8 "x")], true⟩ "anthropic" none).2.1 rfl
  · exact (C10_empty_credential_as_missing (fun _ => true)
      ⟨[], false⟩ "anthropic" none).2.2 (by decide)

/-- Each record call appends exactly the entry determined by its
arguments and the current run id, and updates the current run id. -/
theorem applyEvent_log (st : CallbackState) (e : CallEvent) :
    applyEvent st e
      = { audit_log := st.audit_log ++ [eventEntry st.current_run e],
          current_run := eventRun st.current_run e } := by
  cases e <;> rfl

/-- A sequence of record calls appends exactly its entries, in call
order, after the existing log. -/
theorem runEvents_log (es : List CallEvent) :
    ∀ st : CallbackState,
    (runEvents st es).audit_log = st.audit_log ++ eventEntries st.current_run es := by
  induction es with
  | nil => intro st; simp [runEvents, eventEntries]
  | cons e es ih =>
    intro st
    have h1 : runEvents st (e :: es) = runEvents (applyEvent st e) es := rfl
    rw [h1, ih (applyEvent st e), applyEvent_log]
    simp [eventEntries]

/-- C7: for every sequence of record calls, the snapshot lists exactly
the appended entries in call order after the pre-existing ones (so no
earlier entry is ever mutated by a later call), a snapshot after a clear
is empty, and from a fresh callback the snapshot is exactly the call
sequence's entries. -/
theorem C7_audit_insertion_order :
    ∀ (es : List CallEvent) (st : CallbackState),
    get_audit_log (runEvents st es)
      = get_audit_log st ++ eventEntries st.current_run es ∧
    get_audit_log (clear_audit_log (runEvents st es)) = [] ∧
    get_audit_log (runEvents CallbackState.init es) = eventEntries none es := by
  intro es st
  refine ⟨runEvents_log es st, rfl, ?_⟩
  have h := runEvents_log es CallbackState.init
  simpa [CallbackState.init, get_audit_log] using h

/-- C9 counterexample: on_llm_start is not total over arbitrary
serialized dicts.  With a None kwargs value, line 57 calls .get on None
and raises AttributeError; with an int id value, line 58 subscripts an
int and raises TypeError.  Both raise after the current run was set and
before any entry was appended. -/
theorem C9_on_llm_start_counterexample :
    on_llm_start_py "t" CallbackStatePy.init [("kwargs", PyVal.none)] [] none
      = Except.error (PyErr.attributeError,
          { audit_log := [], current_run := none }) ∧
    on_llm_start_py "t" CallbackStatePy.init [("id", PyVal.int 7)] [] none
      = Except.error (PyErr.typeError,
          { audit_log := [], current_run := none }) := by
  exact ⟨rfl, rfl⟩

/-- C9 amended: on every serialized dict whose kwargs value, if present,
is a dict and whose id value, if present, is a list (the shapes the
caller supplies), on_llm_start never raises and appends exactly one
llm_start entry carrying the extracted provider, model and prompt count;
a missing kwargs dict or missing model key yields model unknown, and a
missing or empty id list yields provider unknown. -/
theorem C9_on_llm_start_wellshaped :
    ∀ (now : String) (st : CallbackStatePy) (ser : List (String × PyVal))
      (prompts : List PyVal) (rid : Option String),
    (∀ v, ser.lookup "kwargs" = some v → ∃ kv, v = PyVal.dict kv) →
    (∀ v, ser.lookup "id" = some v → ∃ l, v = PyVal.list l) →
    ((∃ provider model,
        extractModelPy ser = Except.ok model ∧
        extractProviderPy ser = Except.ok provider ∧
        on_llm_start_py now st ser prompts rid = Except.ok
          { audit_log := st.audit_log ++
              [{ timestamp := now, event := "llm_start",
                 run_id := if truthyStr rid then rid else none,
                 metadata := [("provider", provider), ("model", model),
                              ("prompt_count", PyVal.int prompts.length)] }],
            current_run := if truthyStr rid then rid else none }) ∧
     (ser.lookup "kwargs" = none →
        extractModelPy ser = Except.ok (PyVal.str "unknown")) ∧
     (∀ kv, ser.lookup "kwargs" = some (PyVal.dict kv) → kv.lookup "model" = none →
        extractModelPy ser = Except.ok (PyVal.str "unknown")) ∧
     (ser.lookup "id" = none →
        extractProviderPy ser = Except.ok (PyVal.str "unknown")) ∧
     (ser.lookup "id" = some (PyVal.list []) →
        extractProviderPy ser = Except.ok (PyVal.str "unknown"))) := by
  intro now st ser prompts rid hk hi
  have hkd : ∃ kv, dictGet ser "kwargs" (PyVal.dict []) = PyVal.dict kv := by
    cases hkw : ser.lookup "kwargs" with
    | none => exact ⟨[], by simp [dictGet, hkw]⟩
    | some v =>
      obtain ⟨kv, rfl⟩ := hk v hkw
      exact ⟨kv, by simp [dictGet, hkw]⟩
  obtain ⟨kv, hkv⟩ := hkd
  have hm : extractModelPy ser
      = Except.ok (dictGet kv "model" (PyVal.str "unknown")) := by
    rw [extractModelPy, hkv]
    rfl
  have hp : ∃ p, extractProviderPy ser = Except.ok p := by
    cases hiv : ser.lookup "id" with
    | none =>
      exact ⟨PyVal.str "unknown",
        by simp [extractProviderPy, dictGet, hiv, pyTruthy]⟩
    | some v =>
      obtain ⟨l, rfl⟩ := hi v hiv
      cases l with
      | nil =>
        exact ⟨PyVal.str "unknown",
          by simp [extractProviderPy, dictGet, hiv, pyTruthy]⟩
      | cons x xs =>
        refine ⟨(x :: xs).getLast (by simp), ?_⟩
        simp [extractProviderPy, dictGet, hiv, pyTruthy, pyLastIndex,
          List.getLast?_eq_getLast]
  obtain ⟨p, hp⟩ := hp
  refine ⟨⟨p, dictGet kv "model" (PyVal.str "unknown"), hm, hp, ?_⟩,
    ?_, ?_, ?_, ?_⟩
  · rw [on_llm_start_py, hm, hp]
  · intro h
    simp [extractModelPy, dictGet, h, pyDotGet, List.lookup]
  · intro kv2 h hm2
    simp [extractModelPy, dictGet, h, pyDotGet, hm2]
  · intro h
    simp [extractProviderPy, dictGet, h, pyTruthy]
  · intro h
    simp [extractProviderPy, dictGet, h, pyTruthy]

/-- Witness for C9 amended: an empty serialized dict (no kwargs, no id)
yields exactly one entry with both fields unknown, and an explicitly
empty id list also falls back to unknown. -/
theorem C9_on_llm_start_wellshaped_witness :
    extractModelPy [] = Except.ok (PyVal.str "unknown") ∧
    extractProviderPy [("id", PyVal.list [])] = Except.ok (PyVal.str "unknown") := by
  constructor
  · exact (C9_on_llm_start_wellshaped "t" CallbackStatePy.init [] [] none
      (fun v h => Option.noConfusion h) (fun v h => Option.noConfusion h)).2.1 rfl
  · exact (C9_on_llm_start_wellshaped "t" CallbackStatePy.init
      [("id", PyVal.list [])] [] none
      (fun v h => Option.noConfusion h)
      (fun v h => ⟨[], (Option.some.inj h).symm⟩)).2.2.2.2 rfl

/-- C8: used as a scoped resource, a freshly constructed provider has its
backend connection closed exactly once on every exit path, __exit__
returns False, and an exception raised by the body still propagates while
a normal result is passed through. -/
theorem C8_scoped_close_once :
    ∀ (α : Type) (st : ProviderRes) (body : Except String α),
    st.clientSome = true → st.closeCalls = 0 →
    ((withProvider st body).2.closeCalls = 1 ∧
     (exitCM st).2 = false ∧
     (∀ e, body = Except.error e → (withProvider st body).1 = Except.error e) ∧
     (∀ a, body = Except.ok a → (withProvider st body).1 = Except.ok (some a))) := by
  intro α st body h1 h2
  refine ⟨?_, rfl, ?_, ?_⟩
  · cases body <;> simp [withProvider, exitCM, closeProv, h1, h2]
  · intro e he
    subst he
    simp [withProvider, exitCM]
  · intro a ha
    subst ha
    rfl

/-- Witness for C8: a fresh provider whose body raises; close runs once
and the exception propagates. -/
theorem C8_scoped_close_once_witness :
    (withProvider ⟨true, 0⟩ (Except.error "boom" : Except String Nat)).2.closeCalls = 1 ∧
    (withProvider ⟨true, 0⟩ (Except.error "boom" : Except String Nat)).1
      = Except.error "boom" := by
  have h := C8_scoped_close_once Nat ⟨true, 0⟩ (Except.error "boom") rfl rfl
  exact ⟨h.1, h.2.2.1 "boom" rfl⟩

/-- A logged entry, for the snapshot aliasing scenario. -/
def entryA : AuditEntry :=
  { timestamp := "t0", event := "llm_start", run_id := none, metadata := [] }

/-- The same dict after an in-place mutation made through the snapshot. -/
def entryB : AuditEntry :=
  { timestamp := "t0", event := "llm_start", run_id := none,
    metadata := [("provider", MetaVal.s "mutated")] }

/-- A heap after one _log call: one entry dict at address 0 and the
internal audit-log list (address 0 in the list heap) holding it. -/
def heap1 : PyHeap := { dicts := [entryA], lists := [[0]] }

/-- The callback whose audit-log attribute is the list object at 0. -/
def cb1 : CallbackObj := { logAddr := 0 }

/-- C6 counterexample: list.copy() is shallow, so the snapshot aliases
the entry dicts of internal storage.  The returned copy holds the address
of the logged entry dict; mutating that dict in place through the
snapshot changes what a subsequent snapshot shows. -/
theorem C6_snapshot_alias_counterexample :
    (snapshotAlloc heap1 cb1).1.lists.getD (snapshotAlloc heap1 cb1).2 [] = [0] ∧
    readList (snapshotAlloc heap1 cb1).1 (snapshotAlloc heap1 cb1).2
      = [some entryA] ∧
    readList
      (snapshotAlloc (dictAssign (snapshotAlloc heap1 cb1).1 0 entryB) cb1).1
      (snapshotAlloc (dictAssign (snapshotAlloc heap1 cb1).1 0 entryB) cb1).2
      = [some entryB] ∧
    ([some entryB] : List (Option AuditEntry)) ≠ [some entryA] := by
  exact ⟨rfl, rfl, rfl, by decide⟩

/-- C6 amended: the returned snapshot is a fresh list object distinct
from the internal one, so a list-level mutation of the returned sequence
(element assignment, append, remove) never affects the sink and a
subsequent snapshot renders unchanged; however the entry dicts inside
are shared with internal storage (shallow copy), so an in-place mutation
of an entry through the snapshot is visible in later snapshots. -/
theorem C6_snapshot_list_copy :
    ∀ (σ : PyHeap) (cb : CallbackObj) (c : List Addr),
    cb.logAddr < σ.lists.length →
    ((snapshotAlloc σ cb).2 ≠ cb.logAddr ∧
     (listAssign (snapshotAlloc σ cb).1 (snapshotAlloc σ cb).2 c).lists.getD
        cb.logAddr [] = σ.lists.getD cb.logAddr [] ∧
     readList
       (snapshotAlloc (listAssign (snapshotAlloc σ cb).1 (snapshotAlloc σ cb).2 c) cb).1
       (snapshotAlloc (listAssign (snapshotAlloc σ cb).1 (snapshotAlloc σ cb).2 c) cb).2
       = readList (snapshotAlloc σ cb).1 (snapshotAlloc σ cb).2) := by
  intro σ cb c h
  refine ⟨?_, ?_, ?_⟩
  · show σ.lists.length ≠ cb.logAddr
    exact Nat.ne_of_gt h
  · show ((σ.lists ++ [σ.lists.getD cb.logAddr []]).set σ.lists.length c).getD
        cb.logAddr [] = σ.lists.getD cb.logAddr []
    rw [set_concat_length, getD_append_left σ.lists [c] cb.logAddr [] h]
  · simp only [snapshotAlloc, listAssign, readList]
    rw [set_concat_length, getD_append_left σ.lists [c] cb.logAddr [] h,
      getD_concat_length, getD_concat_length]

/-- Witness for C6 amended: clearing out the returned copy in place
leaves the next snapshot identical. -/
theorem C6_snapshot_list_copy_witness :
    (snapshotAlloc heap1 cb1).2 ≠ cb1.logAddr ∧
    readList
      (snapshotAlloc (listAssign (snapshotAlloc heap1 cb1).1 (snapshotAlloc heap1 cb1).2 []) cb1).1
      (snapshotAlloc (listAssign (snapshotAlloc heap1 cb1).1 (snapshotAlloc heap1 cb1).2 []) cb1).2
      = readList (snapshotAlloc heap1 cb1).1 (snapshotAlloc heap1 cb1).2 := by
  have h := C6_snapshot_list_copy heap1 cb1 [] (by decide)
  exact ⟨h.1, h.2.2⟩

end LangchainAVP
